import Mathlib

/-
Verification of the TorchRec_Cookbook helper library.

The repository consists of thin wrappers around an external tensor framework.
We give a shallow embedding: the global torch random generator is modelled as
an abstract draw stream (a parameter of every definition) together with an
explicit state (the seed source selected by manual_seed, and a position into
the stream).  torch.randint is fallible (it raises when low is not below
high), so it returns an Option; torch.cat is fallible on an empty tensor
list, so it returns an Option as well.  Python ints are modelled as Int,
tensor shapes as Nat, 1-D integer tensors as List Int.
-/

namespace Cookbook

/-- Abstract behaviour of the torch global random source: for every seed the
stream of raw draws after torch.manual_seed, and the ambient stream used when
no seed was ever set. -/
structure TorchRng where
  seeded : Int → Nat → Nat
  unseeded : Nat → Nat

/-- State of the torch global generator: which stream is active (some s after
manual_seed s, none for the ambient one) and the position in that stream. -/
structure RngState where
  src : Option Int
  pos : Nat
deriving DecidableEq, Repr

/-- The raw draw j steps ahead of the current position. -/
def RngState.valAt (st : RngState) (R : TorchRng) (j : Nat) : Nat :=
  match st.src with
  | some s => R.seeded s (st.pos + j)
  | none => R.unseeded (st.pos + j)

/-- Consume n draws. -/
def RngState.advance (st : RngState) (n : Nat) : RngState :=
  { st with pos := st.pos + n }

/-- torch.manual_seed s: resets the global generator deterministically from s,
discarding the previous state. -/
def manual_seed (s : Int) : RngState :=
  { src := some s, pos := 0 }

/-- torch.randint(low, high, (n,)): n integers uniform in the half-open range
from low to high.  Raises (returns none) unless low < high; each returned
entry is low plus a raw draw reduced modulo the range width. -/
def randint (R : TorchRng) (low high : Int) (n : Nat) (st : RngState) :
    Option (List Int × RngState) :=
  if low < high then
    some ((List.range n).map (fun j => low + (st.valAt R j : Int) % (high - low)),
      st.advance n)
  else
    none

/-- DataConfig from src/Cookbook/utils/data_generators.py. -/
structure DataConfig where
  num_users : Int := 1000
  num_products : Int := 10000
  max_sequence_length : Int := 20
  min_sequence_length : Int := 1
  batch_size : Nat := 32
  seed : Option Int := none
deriving DecidableEq, Repr

/-- TorchRecDataGenerator.__init__: stores the config and, when a seed is
present, calls torch.manual_seed on it (mutating the global generator). -/
def generatorInit (cfg : DataConfig) (st : RngState) : RngState :=
  match cfg.seed with
  | some s => manual_seed s
  | none => st

/-- TorchRecDataGenerator.generate_sequence_lengths: batch_size draws from
torch.randint(min_sequence_length, max_sequence_length, (batch_size,)). -/
def generate_sequence_lengths (R : TorchRng) (cfg : DataConfig) (batch_size : Nat)
    (st : RngState) : Option (List Int × RngState) :=
  randint R cfg.min_sequence_length cfg.max_sequence_length batch_size st

/-- A synthetic batch: the values and lengths tensors. -/
structure Batch where
  values : List Int
  lengths : List Int
deriving DecidableEq, Repr

/-- TorchRecDataGenerator.generate_batch: draw a length vector, sum it to get
the total value count, draw that many identifiers from
torch.randint(0, num_products, (total_values,)).  A negative total (possible
only when the config admits negative lengths) is a negative tensor dimension,
which torch rejects. -/
def generate_batch (R : TorchRng) (cfg : DataConfig) (st : RngState) :
    Option (Batch × RngState) :=
  match generate_sequence_lengths R cfg cfg.batch_size st with
  | none => none
  | some (lengths, st1) =>
    let total : Int := lengths.sum
    if 0 ≤ total then
      match randint R 0 cfg.num_products total.toNat st1 with
      | none => none
      | some (values, st2) => some ({ values := values, lengths := lengths }, st2)
    else
      none

/-- torch.cat on a list of 1-D tensors: concatenation, but torch.cat raises
(returns none) on an empty tensor list. -/
def torch_cat (ts : List (List Int)) : Option (List Int) :=
  if ts.isEmpty then none else some ts.flatten

/-- The result bundle of generate_kjt_inputs, with keys of an arbitrary type. -/
structure KjtInputs (α : Type) where
  keys : List α
  values : List Int
  lengths : List Int
deriving DecidableEq, Repr

/-- The list comprehension building one batch per feature name, threading the
global generator left to right. -/
def genBatches (R : TorchRng) (cfg : DataConfig) :
    Nat → RngState → Option (List Batch × RngState)
  | 0, st => some ([], st)
  | n + 1, st =>
    match generate_batch R cfg st with
    | none => none
    | some (b, st1) =>
      match genBatches R cfg n st1 with
      | none => none
      | some (bs, st2) => some (b :: bs, st2)

/-- TorchRecDataGenerator.generate_kjt_inputs: one batch per feature name,
keys in the given order, values and lengths each torch.cat of the per-batch
tensors. -/
def generate_kjt_inputs {α : Type} (R : TorchRng) (cfg : DataConfig)
    (feature_names : List α) (st : RngState) : Option (KjtInputs α × RngState) :=
  match genBatches R cfg feature_names.length st with
  | none => none
  | some (batches, st1) =>
    match torch_cat (batches.map Batch.values), torch_cat (batches.map Batch.lengths) with
    | some vs, some ls =>
      some ({ keys := feature_names, values := vs, lengths := ls }, st1)
    | _, _ => none

/-- Boolean check that every entry of a length vector lies in the half-open
configured range. -/
def lengthsInRange (cfg : DataConfig) (l : List Int) : Bool :=
  l.all (fun x => decide (cfg.min_sequence_length ≤ x) && decide (x < cfg.max_sequence_length))

/- Concrete instances used by witnesses and counterexamples. -/

/-- A concrete admissible random source: the raw draw at position i is i. -/
def idRng : TorchRng :=
  { seeded := fun _ i => i, unseeded := fun i => i }

/-- The example configuration of the spec scenario. -/
def cfgW : DataConfig :=
  { num_users := 10, num_products := 5, max_sequence_length := 3,
    min_sequence_length := 1, batch_size := 4, seed := some 42 }

/-- The fresh generator state for cfgW. -/
def stW : RngState := generatorInit cfgW { src := none, pos := 0 }

/-- A small configuration with batch_size 1, used to compare two successive
calls on one generator. -/
def cfgOne : DataConfig :=
  { num_users := 10, num_products := 10, max_sequence_length := 3,
    min_sequence_length := 1, batch_size := 1, seed := some 42 }

/-- A configuration whose minimum and maximum sequence lengths coincide. -/
def cfgEq : DataConfig :=
  { num_users := 10, num_products := 5, max_sequence_length := 2,
    min_sequence_length := 2, batch_size := 4, seed := some 42 }

/-- The observable result sequence of n successive generate_batch calls on one
generator; a call that raises leaves the global generator untouched. -/
def runBatches (R : TorchRng) (cfg : DataConfig) :
    Nat → RngState → List (Option Batch)
  | 0, _ => []
  | n + 1, st =>
    match generate_batch R cfg st with
    | none => none :: runBatches R cfg n st
    | some (b, st1) => some b :: runBatches R cfg n st1

/- Helper lemmas about randint, shared across the claims. -/

theorem randint_eq_some {R : TorchRng} {low high : Int} {n : Nat} {st : RngState}
    {l : List Int} {st' : RngState} (h : randint R low high n st = some (l, st')) :
    low < high ∧ l = (List.range n).map (fun j => low + (st.valAt R j : Int) % (high - low)) ∧
      st' = st.advance n := by
  unfold randint at h
  split at h
  · refine ⟨by assumption, ?_, ?_⟩ <;> simp only [Option.some.injEq, Prod.mk.injEq] at h
    · exact h.1.symm
    · exact h.2.symm
  · exact absurd h (by simp)

theorem randint_length {R : TorchRng} {low high : Int} {n : Nat} {st : RngState}
    {l : List Int} {st' : RngState} (h : randint R low high n st = some (l, st')) :
    l.length = n := by
  obtain ⟨-, hl, -⟩ := randint_eq_some h
  simp [hl]

theorem randint_mem_bounds {R : TorchRng} {low high : Int} {n : Nat} {st : RngState}
    {l : List Int} {st' : RngState} (h : randint R low high n st = some (l, st'))
    {x : Int} (hx : x ∈ l) : low ≤ x ∧ x < high := by
  obtain ⟨hlt, hl, -⟩ := randint_eq_some h
  subst hl
  simp only [List.mem_map, List.mem_range] at hx
  obtain ⟨j, -, rfl⟩ := hx
  have hpos : (0 : Int) < high - low := by linarith
  have h1 : 0 ≤ (st.valAt R j : Int) % (high - low) :=
    Int.emod_nonneg _ (by linarith)
  have h2 : (st.valAt R j : Int) % (high - low) < high - low :=
    Int.emod_lt_of_pos _ hpos
  constructor <;> linarith

/-- Claim C1: for every batch returned by generate_batch, the sum of the lengths
tensor equals the number of entries of the values tensor. -/
theorem generate_batch_sum_lengths_eq_len_values
    (R : TorchRng) (cfg : DataConfig) (st : RngState) (b : Batch) (st' : RngState)
    (h : generate_batch R cfg st = some (b, st')) :
    b.lengths.sum = (b.values.length : Int) := by
  unfold generate_batch at h
  split at h
  · exact absurd h (by simp)
  · rename_i lengths st1 heq
    simp only at h
    split at h
    · rename_i htot
      split at h
      · exact absurd h (by simp)
      · rename_i values st2 hrand
        have hlen : values.length = lengths.sum.toNat := randint_length hrand
        simp only [Option.some.injEq, Prod.mk.injEq] at h
        obtain ⟨hb, -⟩ := h
        subst hb
        simp only [hlen]
        omega
    · exact absurd h (by simp)

/-- Witness for C1: the spec example configuration with a concrete random source
yields a batch satisfying the invariant. -/
theorem generate_batch_sum_lengths_eq_len_values_witness :
    (Batch.mk [4, 0, 1, 2, 3, 4] [1, 2, 1, 2]).lengths.sum =
      ((Batch.mk [4, 0, 1, 2, 3, 4] [1, 2, 1, 2]).values.length : Int) :=
  generate_batch_sum_lengths_eq_len_values idRng cfgW stW
    (Batch.mk [4, 0, 1, 2, 3, 4] [1, 2, 1, 2]) { src := some 42, pos := 10 }
    (by decide)

/-- Claim C2: a bundle returned by generate_kjt_inputs has keys equal to the input
feature-name list in order, values and lengths each the in-order
concatenation of the per-feature tensors, and a values length equal to the
sum of the per-feature value counts. -/
theorem generate_kjt_inputs_spec {α : Type} (R : TorchRng) (cfg : DataConfig)
    (names : List α) (st : RngState) (out : KjtInputs α) (st' : RngState)
    (bs : List Batch) (st2 : RngState)
    (h1 : generate_kjt_inputs R cfg names st = some (out, st'))
    (h2 : genBatches R cfg names.length st = some (bs, st2)) :
    out.keys = names ∧
      out.values = (bs.map Batch.values).flatten ∧
      out.lengths = (bs.map Batch.lengths).flatten ∧
      out.values.length = ((bs.map Batch.values).map List.length).sum := by
  unfold generate_kjt_inputs at h1
  rw [h2] at h1
  simp only at h1
  split at h1
  · rename_i vs ls hv hl
    unfold torch_cat at hv hl
    split at hv
    · exact absurd hv (by simp)
    · split at hl
      · exact absurd hl (by simp)
      · simp only [Option.some.injEq, Prod.mk.injEq] at hv hl h1
        obtain ⟨hout, -⟩ := h1
        subst hout
        refine ⟨rfl, hv.symm, hl.symm, ?_⟩
        simp [← hv, List.length_flatten]
  · exact absurd h1 (by simp)

/-- Witness for C2: two feature names under the spec example configuration. -/
theorem generate_kjt_inputs_spec_witness :
    (KjtInputs.mk [0, 1] [4, 0, 1, 2, 3, 4, 4, 0, 1, 2, 3, 4]
        [1, 2, 1, 2, 1, 2, 1, 2] : KjtInputs Nat).keys = [0, 1] ∧
      (KjtInputs.mk [0, 1] [4, 0, 1, 2, 3, 4, 4, 0, 1, 2, 3, 4]
          [1, 2, 1, 2, 1, 2, 1, 2] : KjtInputs Nat).values =
        ([Batch.mk [4, 0, 1, 2, 3, 4] [1, 2, 1, 2],
          Batch.mk [4, 0, 1, 2, 3, 4] [1, 2, 1, 2]].map Batch.values).flatten ∧
      (KjtInputs.mk [0, 1] [4, 0, 1, 2, 3, 4, 4, 0, 1, 2, 3, 4]
          [1, 2, 1, 2, 1, 2, 1, 2] : KjtInputs Nat).lengths =
        ([Batch.mk [4, 0, 1, 2, 3, 4] [1, 2, 1, 2],
          Batch.mk [4, 0, 1, 2, 3, 4] [1, 2, 1, 2]].map Batch.lengths).flatten ∧
      (KjtInputs.mk [0, 1] [4, 0, 1, 2, 3, 4, 4, 0, 1, 2, 3, 4]
          [1, 2, 1, 2, 1, 2, 1, 2] : KjtInputs Nat).values.length =
        (([Batch.mk [4, 0, 1, 2, 3, 4] [1, 2, 1, 2],
           Batch.mk [4, 0, 1, 2, 3, 4] [1, 2, 1, 2]].map Batch.values).map List.length).sum :=
  generate_kjt_inputs_spec idRng cfgW [0, 1] stW
    (KjtInputs.mk [0, 1] [4, 0, 1, 2, 3, 4, 4, 0, 1, 2, 3, 4] [1, 2, 1, 2, 1, 2, 1, 2])
    { src := some 42, pos := 20 }
    [Batch.mk [4, 0, 1, 2, 3, 4] [1, 2, 1, 2], Batch.mk [4, 0, 1, 2, 3, 4] [1, 2, 1, 2]]
    { src := some 42, pos := 20 }
    (by decide) (by decide)

/-- Counterexample for C3: with a fixed seed, two successive generate_batch calls
on the same generator return different values tensors, because seeding
happens once at construction and each call advances the global generator. -/
theorem generate_batch_repeated_calls_differ :
    (generate_batch idRng cfgOne (generatorInit cfgOne { src := none, pos := 0 })).map
        Prod.fst = some (Batch.mk [1] [1]) ∧
      ((generate_batch idRng cfgOne (generatorInit cfgOne { src := none, pos := 0 })).bind
          (fun p => generate_batch idRng cfgOne p.2)).map Prod.fst =
        some (Batch.mk [3] [1]) ∧
      Batch.mk [1] [1] ≠ Batch.mk [3] [1] := by
  decide

/-- Claim C3 as amended: with a fixed non-null seed, construction reseeds the global
generator, so the whole sequence of generate_batch results is independent of
the generator state before construction; runs are reproducible. -/
theorem seeded_generator_reproducible (R : TorchRng) (cfg : DataConfig) (s : Int)
    (st1 st2 : RngState) (n : Nat) (h : cfg.seed = some s) :
    runBatches R cfg n (generatorInit cfg st1) =
      runBatches R cfg n (generatorInit cfg st2) := by
  simp [generatorInit, h]

/-- Witness for the amended C3: two different prior generator states give the same
two-call result sequence under the seeded example configuration. -/
theorem seeded_generator_reproducible_witness :
    runBatches idRng cfgOne 2 (generatorInit cfgOne { src := none, pos := 5 }) =
      runBatches idRng cfgOne 2 (generatorInit cfgOne { src := some 7, pos := 3 }) :=
  seeded_generator_reproducible idRng cfgOne 42
    { src := none, pos := 5 } { src := some 7, pos := 3 } 2 (by decide)

/-- Claim C4: generate_sequence_lengths returns exactly batch_size entries, each at
least the configured minimum and strictly below the configured maximum, when
the minimum is below the maximum; and when the minimum equals the maximum the
underlying randint raises instead of returning a vector. -/
theorem generate_sequence_lengths_spec (R : TorchRng) (cfg : DataConfig)
    (batch_size : Nat) (st : RngState) :
    (cfg.min_sequence_length < cfg.max_sequence_length →
        (generate_sequence_lengths R cfg batch_size st).map
            (fun p => (p.1.length, lengthsInRange cfg p.1)) =
          some (batch_size, true)) ∧
      (cfg.min_sequence_length = cfg.max_sequence_length →
        generate_sequence_lengths R cfg batch_size st = none) := by
  constructor
  · intro h
    cases hs : generate_sequence_lengths R cfg batch_size st with
    | none =>
      unfold generate_sequence_lengths randint at hs
      rw [if_pos h] at hs
      exact absurd hs (by simp)
    | some p =>
      obtain ⟨l, st'⟩ := p
      have hs' : randint R cfg.min_sequence_length cfg.max_sequence_length
          batch_size st = some (l, st') := hs
      have hlen : l.length = batch_size := randint_length hs'
      have hmem : ∀ x ∈ l,
          cfg.min_sequence_length ≤ x ∧ x < cfg.max_sequence_length :=
        fun x hx => randint_mem_bounds hs' hx
      simp only [Option.map_some']
      rw [hlen]
      have hall : lengthsInRange cfg l = true := by
        simp only [lengthsInRange, List.all_eq_true, Bool.and_eq_true,
          decide_eq_true_eq]
        exact fun x hx => hmem x hx
      rw [hall]
  · intro h
    unfold generate_sequence_lengths randint
    rw [if_neg (by rw [h]; exact lt_irrefl _)]

/-- Witness for C4: the spec example configuration returns a vector of 4 in-range
entries, and the degenerate configuration with equal bounds raises. -/
theorem generate_sequence_lengths_spec_witness :
    (generate_sequence_lengths idRng cfgW 4 stW).map
        (fun p => (p.1.length, lengthsInRange cfgW p.1)) = some (4, true) ∧
      generate_sequence_lengths idRng cfgEq 4 stW = none :=
  ⟨(generate_sequence_lengths_spec idRng cfgW 4 stW).1 (by decide),
   (generate_sequence_lengths_spec idRng cfgEq 4 stW).2 (by decide)⟩

/-- Counterexample for C5: with an empty feature-name list, generate_kjt_inputs
does not succeed with an empty bundle; torch.cat on the empty tensor list
raises, so the call returns no bundle at all. -/
theorem generate_kjt_inputs_empty_counterexample :
    generate_kjt_inputs idRng cfgW ([] : List Nat) stW = none := by
  decide

/-- Claim C5 as amended: generate_kjt_inputs performs no non-emptiness
validation of its own, but an empty feature-name list makes torch.cat raise
on an empty tensor list, so the call errors instead of returning empty
concatenations. -/
theorem generate_kjt_inputs_empty_raises (α : Type) (R : TorchRng)
    (cfg : DataConfig) (st : RngState) :
    generate_kjt_inputs R cfg ([] : List α) st = none :=
  rfl

/-- A KeyedJaggedTensor-like object as validate_kjt consumes it: its keys, its
flat values tensor, its lengths tensor, and whether the values tensor resides
on an accelerator device. -/
structure KJT (α : Type) where
  keys : List α
  values : List Int
  lengths : List Int
  values_is_cuda : Bool
deriving DecidableEq, Repr

/-- The record returned by TorchRecDebugger.validate_kjt. -/
structure KjtValidation where
  valid_keys : Bool
  lengths_match : Bool
  on_device : Bool
deriving DecidableEq, Repr

/-- TorchRecDebugger.validate_kjt: three independent boolean checks, computed
without raising and without mutating the input. -/
def validate_kjt {α : Type} (cuda_available : Bool) (kjt : KJT α) : KjtValidation :=
  { valid_keys := decide (0 < kjt.keys.length),
    lengths_match := decide (kjt.lengths.sum = (kjt.values.length : Int)),
    on_device := if cuda_available then kjt.values_is_cuda else true }

/-- Claim C6: validate_kjt reports lengths_match false exactly when the sum of
the lengths does not equal the value count, and true otherwise. -/
theorem validate_kjt_lengths_match_iff (α : Type) (cuda_available : Bool)
    (kjt : KJT α) :
    (validate_kjt cuda_available kjt).lengths_match = false ↔
      kjt.lengths.sum ≠ (kjt.values.length : Int) := by
  simp [validate_kjt]

/-- State of the torch.distributed process-group subsystem, as read by the
wrappers: whether a group is initialized, and the world size and rank it
would report. -/
structure DistEnv where
  initialized : Bool
  world_size : Nat
  rank : Nat
deriving DecidableEq, Repr

/-- State of the accelerator runtime: availability and device count. -/
structure CudaEnv where
  available : Bool
  device_count : Nat
deriving DecidableEq, Repr

/-- The record returned by TorchRecDebugger.check_sharding. -/
structure ShardingInfo where
  world_size : Nat
  local_rank : Nat
  device_count : Nat
deriving DecidableEq, Repr

/-- TorchRecDebugger.check_sharding: reads the distributed and accelerator
state; the model argument is accepted but never consulted. -/
def check_sharding {μ : Type} (_model : μ) (dist : DistEnv) (cuda : CudaEnv) :
    ShardingInfo :=
  { world_size := if dist.initialized then dist.world_size else 1,
    local_rank := if dist.initialized then dist.rank else 0,
    device_count := cuda.device_count }

/-- Claim C7: whenever no distributed process group is initialized,
check_sharding returns world_size 1 and local_rank 0. -/
theorem check_sharding_single_process_defaults {μ : Type} (model : μ)
    (dist : DistEnv) (cuda : CudaEnv) (h : dist.initialized = false) :
    (check_sharding model dist cuda).world_size = 1 ∧
      (check_sharding model dist cuda).local_rank = 0 := by
  simp [check_sharding, h]

/-- Witness for C7: a concrete uninitialized distributed state. -/
theorem check_sharding_single_process_defaults_witness :
    (check_sharding () (DistEnv.mk false 4 2) (CudaEnv.mk true 8)).world_size = 1 ∧
      (check_sharding () (DistEnv.mk false 4 2) (CudaEnv.mk true 8)).local_rank = 0 :=
  check_sharding_single_process_defaults () (DistEnv.mk false 4 2)
    (CudaEnv.mk true 8) (by decide)

/-- Python names appearing in the modules of this repository. -/
inductive PyName where
  | torch
  | os
  | gc
  | time
  | dataclassT
  | listT
  | dictT
  | callableT
  | anyT
  | optionalT
  | tupleT
  | intT
  | benchmarkResult
  | torchRecBenchmark
  | torchRecEnvironment
  | fbgemm
deriving DecidableEq, BEq, Repr

/-- The module-level names of src/Cookbook/utils/environment.py: its imports
and the class it defines.  The module never binds the name fbgemm, and
globals() inside its static methods sees exactly this namespace, whatever
packages are installed. -/
def environmentModuleGlobals : List PyName :=
  [PyName.torch, PyName.os, PyName.dictT, PyName.anyT, PyName.torchRecEnvironment]

/-- The record returned by TorchRecEnvironment.check_environment. -/
structure EnvironmentCheck where
  cuda_available : Bool
  gpu_count : Nat
  distributed_available : Bool
  fbgemm_available : Bool
deriving DecidableEq, Repr

/-- TorchRecEnvironment.check_environment: reads the accelerator and
distributed state; fbgemm_available tests membership of the name fbgemm in
the module globals, not the set of installed packages. -/
def check_environment (cuda : CudaEnv) (distributed_available : Bool)
    (_installed_packages : List PyName) : EnvironmentCheck :=
  { cuda_available := cuda.available,
    gpu_count := if cuda.available then cuda.device_count else 0,
    distributed_available := distributed_available,
    fbgemm_available :=
      if environmentModuleGlobals.contains PyName.fbgemm then true else false }

/-- Claim C9: check_environment reports fbgemm_available false in every run,
whatever the accelerator and distributed state and whatever packages are
installed. -/
theorem check_environment_fbgemm_always_false (cuda : CudaEnv)
    (distributed_available : Bool) (installed_packages : List PyName) :
    (check_environment cuda distributed_available installed_packages).fbgemm_available =
      false :=
  rfl

/-- The Python builtins consulted by the benchmark module annotations. -/
def pythonBuiltins : List PyName :=
  [PyName.intT]

/-- The names bound at top level of src/Cookbook/utils/benchmark.py by the
time its class body runs: the imports of lines 1-3 and the BenchmarkResult
dataclass.  torch is never imported. -/
def benchmarkModuleScope : List PyName :=
  [PyName.time, PyName.dataclassT, PyName.listT, PyName.dictT, PyName.callableT,
   PyName.benchmarkResult]

/-- The free names of the annotation expressions of benchmark_forward, which
Python evaluates when the def statement runs during class-body execution at
module load: torch (from torch.nn.Module), Any, int, and BenchmarkResult. -/
def benchmarkSignatureFreeNames : List PyName :=
  [PyName.torch, PyName.anyT, PyName.intT, PyName.benchmarkResult]

/-- Loading the benchmark module: the first annotation name that resolves
neither in the module scope nor among the builtins raises NameError (some n);
none means the module loads. -/
def loadBenchmarkModule : Option PyName :=
  benchmarkSignatureFreeNames.find?
    (fun n => !((benchmarkModuleScope ++ pythonBuiltins).contains n))

/-- Whether benchmark_forward can ever be invoked: only if its module loads. -/
def benchmark_forward_runnable : Bool :=
  loadBenchmarkModule.isNone

/-- Claim C8, evaluated at the failing input: the benchmark module never
loads, so benchmark_forward never performs its warmup and timed invocations
and never returns a BenchmarkResult. -/
theorem benchmark_forward_never_runs :
    benchmark_forward_runnable = false := by
  decide

/-- Claim C10: the benchmark module scope lacks torch and Any, so loading the
module raises NameError on torch when the annotations of benchmark_forward
are evaluated, before any call can be made. -/
theorem benchmark_module_load_fails :
    benchmarkModuleScope.contains PyName.torch = false ∧
      benchmarkModuleScope.contains PyName.anyT = false ∧
      loadBenchmarkModule = some PyName.torch := by
  decide

end Cookbook
